import Mathlib

/-!
# debpkg-wrapper

A shallow embedding of `debpkg-wrapper.c`, the setuid shim that re-executes
`/usr/share/devscripts/debpkg`.  Its `main (ac, av)` is three statements:

    execv(REAL_PATH, av);
    fprintf(stderr, "Error executing debpkg: %s\n", strerror(errno));
    return 1;

The operating system and the C library are not part of the program; they are
a parameter (`Sys`).  The process is an explicit state (`Proc`); every library
call of `main` is a state transformer that also appends the effect it performs
to the process trace.
-/

set_option linter.unusedVariables false

namespace DebpkgWrapper

/-! ## Process state -/

/-- Real, effective and saved user and group IDs of a process. -/
structure Ids where
  ruid : Nat
  euid : Nat
  suid : Nat
  rgid : Nat
  egid : Nat
  sgid : Nat
deriving DecidableEq, Repr

/-- The effects a process can have on the outside world.  `execv` records the
request as the kernel sees it: path, argument vector and the environment, open
descriptors and identity of the calling process at the moment of the call. -/
inductive Effect where
  | execv (path : String) (argv : List String) (env : List String)
      (fds : List Nat) (ids : Ids)
  | write (fd : Nat) (text : String)
  | exit (status : Nat)
  | fork
  | fileWrite (path : String) (text : String)
  | network (peer : String)
  | setenv (name : String) (value : String)
  | close (fd : Nat)
  | setIds (ids : Ids)
deriving DecidableEq, Repr

/-- The state of the running process as far as the shim can observe or change
it. `fds` is the set of open descriptors; `out` and `err` hold everything that
has reached standard output and standard error so far. -/
structure Proc where
  env : List String
  fds : List Nat
  ids : Ids
  errno : Nat
  out : String
  err : String
  trace : List Effect
deriving DecidableEq, Repr

/-- The operating system and C library the shim runs on.
`execve path argv p` is the kernel's verdict on a process-replacement request
made by process `p`: `none` when the image is replaced, `some e` when the call
fails with error code `e`.  `write fd text` is the kernel's verdict on writing
`text` to the open descriptor `fd`: `none` when the text is written, `some e`
when the write fails with error code `e` (a full device, a closed pipe).
`strerror e` is the system's description of `e`. -/
structure Sys where
  execve : String → List String → Proc → Option Nat
  write : Nat → String → Option Nat
  strerror : Nat → String

/-- How a run of the program ends: either the process image was replaced (the
program never regains control and has no exit status of its own), or `main`
returned and the process terminated with the given status. -/
inductive Outcome where
  | replaced
  | exited (status : Nat)
deriving DecidableEq, Repr

/-! ## Library calls -/

def STDOUT_FILENO : Nat := 1
def STDERR_FILENO : Nat := 2

def ENOENT : Nat := 2
def EBADF : Nat := 9
def EACCES : Nat := 13
def ENOSPC : Nat := 28

/-- Result of calling `execv`: control comes back (with return value `-1` and
`errno` set) only when the replacement failed. -/
inductive ExecvResult where
  | noReturn (p : Proc)
  | returned (p : Proc) (ret : Int)

/-- `execv(path, argv)`: one process-replacement request with the current
environment.  On failure `errno` is set to the error code. -/
def execv (sys : Sys) (path : String) (argv : List String) (p : Proc) : ExecvResult :=
  let req := Effect.execv path argv p.env p.fds p.ids
  match sys.execve path argv p with
  | none => .noReturn { p with trace := p.trace ++ [req] }
  | some e => .returned { p with errno := e, trace := p.trace ++ [req] } (-1)

/-- `strerror(errnum)`. -/
def strerror (sys : Sys) (errnum : Nat) : String :=
  sys.strerror errnum

/-- Expansion of a `printf` format restricted to the `%s` and `%%`
conversions; each `%s` consumes the next argument and copies it verbatim. -/
def format : List Char → List String → List Char
  | [], _ => []
  | '%' :: 's' :: rest, a :: args => a.data ++ format rest args
  | '%' :: 's' :: rest, [] => format rest []
  | '%' :: '%' :: rest, args => '%' :: format rest args
  | c :: rest, args => c :: format rest args

/-- Write `text` to descriptor `fd`.  The request is made in every case; the
text reaches the stream only when `fd` is open and the system carries the write
out.  On a descriptor that is not open the call fails with `EBADF`, on an open
one it may fail with the code the system gives; a failed call sets `errno` and
leaves the streams as they were. -/
def write (sys : Sys) (fd : Nat) (text : String) (p : Proc) : Proc :=
  let q := { p with trace := p.trace ++ [Effect.write fd text] }
  if fd ∈ p.fds then
    match sys.write fd text with
    | none =>
      { q with
        out := if fd = STDOUT_FILENO then p.out ++ text else p.out
        err := if fd = STDERR_FILENO then p.err ++ text else p.err }
    | some e => { q with errno := e }
  else
    { q with errno := EBADF }

/-- `fprintf(stream, fmt, ...)` on an unbuffered stream: the expanded text is
handed to `write`; the caller may ignore whether that succeeded. -/
def fprintf (sys : Sys) (fd : Nat) (fmt : String) (args : List String) (p : Proc) : Proc :=
  write sys fd (String.mk (format fmt.data args)) p

/-- Process termination after `main` returns `ret`: the exit status is the low
eight bits of the return value. -/
def exit (ret : Int) (p : Proc) : Proc × Outcome :=
  let status := (ret % 256).toNat
  ({ p with trace := p.trace ++ [Effect.exit status] }, .exited status)

/-! ## The program -/

def REAL_PATH : String := "/usr/share/devscripts/debpkg"

/-- The `main` function of `debpkg-wrapper.c`. -/
def main (sys : Sys) (ac : Int) (av : List String) (p : Proc) : Proc × Outcome :=
  match execv sys REAL_PATH av p with
  | .noReturn q => (q, .replaced)
  | .returned q _ =>
    let q1 := fprintf sys STDERR_FILENO "Error executing debpkg: %s\n" [strerror sys q.errno] q
    exit 1 q1

/-- The effects performed by one run of the program started in state `p`. -/
def effects (sys : Sys) (ac : Int) (av : List String) (p : Proc) : List Effect :=
  (main sys ac av p).1.trace.drop p.trace.length

/-! ## Observations on traces -/

/-- Argument vectors of the process-replacement requests of a trace, in order. -/
def execArgvs (t : List Effect) : List (List String) :=
  t.filterMap fun
    | .execv _ argv _ _ _ => some argv
    | _ => none

/-- Paths of the process-replacement requests of a trace, in order. -/
def execPaths (t : List Effect) : List String :=
  t.filterMap fun
    | .execv path _ _ _ _ => some path
    | _ => none

/-- The pieces of text written to descriptor `fd` in a trace, in order. -/
def writesTo (fd : Nat) (t : List Effect) : List String :=
  t.filterMap fun
    | .write d text => if d = fd then some text else none
    | _ => none

/-- Effects that create a process, write to the filesystem or use the network. -/
def Effect.reachesOutside : Effect → Bool
  | .fork => true
  | .fileWrite _ _ => true
  | .network _ => true
  | _ => false

/-- Effects that change the environment, the open descriptors or the identity
of the process. -/
def Effect.changesProcess : Effect → Bool
  | .setenv _ _ => true
  | .close _ => true
  | .setIds _ => true
  | _ => false

/-- Final component of a slash-separated path. -/
def basename (path : String) : String :=
  String.mk (path.data.reverse.takeWhile (fun c => c != '/')).reverse

/-- The diagnostic line for a system error description `d`. -/
def diagnostic (d : String) : String :=
  "Error executing debpkg: " ++ d ++ "\n"

/-! ## Example systems -/

/-- Error descriptions of the C locale for a few error codes. -/
def cLocaleStrerror : Nat → String
  | 1 => "Operation not permitted"
  | 2 => "No such file or directory"
  | 8 => "Exec format error"
  | 13 => "Permission denied"
  | _ => "Unknown error"

/-- A system whose filesystem is the list `files` of paths, each with its
execute permission: a request for a missing path fails with `ENOENT`, for a
path without execute permission with `EACCES`, and otherwise succeeds.  Writes
to open descriptors are carried out. -/
def sysOfFiles (files : List (String × Bool)) : Sys where
  execve path _ _ :=
    match files.lookup path with
    | none => some ENOENT
    | some false => some EACCES
    | some true => none
  write _ _ := none
  strerror := cLocaleStrerror

/-- A system on which the helper is installed and executable. -/
def sysInstalled : Sys := sysOfFiles [("/usr/share/devscripts/debpkg", true)]

/-- A system on which the helper is not installed. -/
def sysMissing : Sys := sysOfFiles [("/bin/true", true)]

/-- A system on which the helper is installed without execute permission. -/
def sysNoExec : Sys := sysOfFiles [("/usr/share/devscripts/debpkg", false)]

/-- A system on which the helper is not installed and every write fails for
lack of space (descriptors opened on a full device). -/
def sysFullDevice : Sys where
  execve _ _ _ := some ENOENT
  write _ _ := some ENOSPC
  strerror := cLocaleStrerror

/-- A freshly started setuid-root process of user 1000. -/
def proc0 : Proc where
  env := ["PATH=/usr/bin:/bin", "HOME=/home/user"]
  fds := [0, 1, 2]
  ids := ⟨1000, 0, 0, 1000, 1000, 1000⟩
  errno := 0
  out := ""
  err := ""
  trace := []

/-- A process that already has output on both streams and a stale `errno`. -/
def proc1 : Proc where
  env := []
  fds := [0, 1, 2, 5]
  ids := ⟨0, 0, 0, 0, 0, 0⟩
  errno := 11
  out := "earlier output\n"
  err := "earlier error\n"
  trace := [Effect.write 1 "earlier output\n", Effect.write 2 "earlier error\n"]

/-- A process started with standard error closed (as by `2>&-` in a shell). -/
def procNoStderr : Proc where
  env := ["PATH=/usr/bin:/bin"]
  fds := [0, 1]
  ids := ⟨1000, 0, 0, 1000, 1000, 1000⟩
  errno := 0
  out := ""
  err := ""
  trace := []

/-- Every call of `write` adds the request, and only it, to the trace. -/
theorem write_trace (sys : Sys) (fd : Nat) (text : String) (p : Proc) :
    (write sys fd text p).trace = p.trace ++ [Effect.write fd text] := by
  unfold write
  split
  · split <;> rfl
  · rfl

/-- A call of `write` leaves environment, descriptors and identity alone. -/
theorem write_frame (sys : Sys) (fd : Nat) (text : String) (p : Proc) :
    (write sys fd text p).env = p.env ∧ (write sys fd text p).fds = p.fds ∧
      (write sys fd text p).ids = p.ids := by
  unfold write
  split
  · split <;> exact ⟨rfl, rfl, rfl⟩
  · exact ⟨rfl, rfl, rfl⟩

/-- A write to standard error leaves standard output alone. -/
theorem write_stderr_out (sys : Sys) (text : String) (p : Proc) :
    (write sys STDERR_FILENO text p).out = p.out := by
  unfold write
  split
  · split <;> rfl
  · rfl

/-- A write to standard error that is open and that the system carries out
appends the text to the stream. -/
theorem write_stderr_err (sys : Sys) (text : String) (p : Proc)
    (hopen : STDERR_FILENO ∈ p.fds) (hw : sys.write STDERR_FILENO text = none) :
    (write sys STDERR_FILENO text p).err = p.err ++ text := by
  unfold write
  rw [if_pos hopen, hw]
  rfl

/-! ## The two paths through `main` -/

theorem format_diag (d : String) :
    String.mk (format "Error executing debpkg: %s\n".data [d]) = diagnostic d := by
  rfl

/-- The run of `main` when the kernel accepts the request: the request is
recorded and nothing else happens. -/
theorem main_replaced (sys : Sys) (ac : Int) (av : List String) (p : Proc)
    (h : sys.execve REAL_PATH av p = none) :
    main sys ac av p =
      ({ p with trace := p.trace ++ [Effect.execv REAL_PATH av p.env p.fds p.ids] },
        Outcome.replaced) := by
  simp [main, execv, h]

/-- The run of `main` when the kernel rejects the request with code `e`:
`errno` is `e`, the diagnostic for `e` is handed to `write` on standard error
and the process exits with return value 1. -/
theorem main_failed (sys : Sys) (ac : Int) (av : List String) (p : Proc) (e : Nat)
    (h : sys.execve REAL_PATH av p = some e) :
    main sys ac av p =
      exit 1 (write sys STDERR_FILENO (diagnostic (sys.strerror e))
        { p with
          errno := e
          trace := p.trace ++ [Effect.execv REAL_PATH av p.env p.fds p.ids] }) := by
  simp only [main, execv, h, fprintf, strerror]
  rfl

theorem effects_replaced (sys : Sys) (ac : Int) (av : List String) (p : Proc)
    (h : sys.execve REAL_PATH av p = none) :
    effects sys ac av p = [Effect.execv REAL_PATH av p.env p.fds p.ids] := by
  simp [effects, main_replaced sys ac av p h]

theorem effects_failed (sys : Sys) (ac : Int) (av : List String) (p : Proc) (e : Nat)
    (h : sys.execve REAL_PATH av p = some e) :
    effects sys ac av p =
      [Effect.execv REAL_PATH av p.env p.fds p.ids,
        Effect.write STDERR_FILENO (diagnostic (sys.strerror e)), Effect.exit 1] := by
  simp [effects, main_failed sys ac av p e h, exit, write_trace]

/-- A failed request ends the run with exit status 1. -/
theorem main_failed_outcome (sys : Sys) (ac : Int) (av : List String) (p : Proc) (e : Nat)
    (h : sys.execve REAL_PATH av p = some e) :
    (main sys ac av p).2 = Outcome.exited 1 := by
  rw [main_failed sys ac av p e h]
  rfl

/-- A run leaves standard output, environment, descriptors and identity as
they were. -/
theorem main_frame (sys : Sys) (ac : Int) (av : List String) (p : Proc) :
    (main sys ac av p).1.out = p.out ∧ (main sys ac av p).1.env = p.env ∧
      (main sys ac av p).1.fds = p.fds ∧ (main sys ac av p).1.ids = p.ids := by
  cases h : sys.execve REAL_PATH av p with
  | none =>
    rw [main_replaced sys ac av p h]
    exact ⟨rfl, rfl, rfl, rfl⟩
  | some e =>
    rw [main_failed sys ac av p e h]
    simp only [exit, write_stderr_out, write_frame]
    exact ⟨trivial, trivial, trivial, trivial⟩

/-- After a failed request, when standard error is open and the system carries
the write out, the diagnostic is appended to standard error. -/
theorem main_failed_err (sys : Sys) (ac : Int) (av : List String) (p : Proc) (e : Nat)
    (h : sys.execve REAL_PATH av p = some e) (hopen : STDERR_FILENO ∈ p.fds)
    (hw : sys.write STDERR_FILENO (diagnostic (sys.strerror e)) = none) :
    (main sys ac av p).1.err = p.err ++ diagnostic (sys.strerror e) := by
  rw [main_failed sys ac av p e h]
  simp only [exit]
  exact write_stderr_err sys _ _ hopen hw

/-! ## Argument forwarding and the target path -/

/-- C1: for every argument vector `av` (the empty one included) and every value
of the argument count `ac`, the run issues exactly one process-replacement
request and the argument vector of that request is `av` itself: same length,
same strings, same order, element 0 included. -/
theorem C1_argv_forwarded (sys : Sys) (ac : Int) (av : List String) (p : Proc) :
    execArgvs (effects sys ac av p) = [av] := by
  cases h : sys.execve REAL_PATH av p with
  | none => rw [effects_replaced sys ac av p h]; rfl
  | some e => rw [effects_failed sys ac av p e h]; rfl

/-- C2: the path of the process-replacement request is the constant
`/usr/share/devscripts/debpkg`; two runs that differ in system, argument
count, argument vector and process state (environment included) request the
same path. -/
theorem C2_path_constant (sys1 sys2 : Sys) (ac1 ac2 : Int) (av1 av2 : List String)
    (p1 p2 : Proc) :
    execPaths (effects sys1 ac1 av1 p1) = ["/usr/share/devscripts/debpkg"] ∧
      execPaths (effects sys2 ac2 av2 p2) = execPaths (effects sys1 ac1 av1 p1) := by
  have key : ∀ (sys : Sys) (ac : Int) (av : List String) (p : Proc),
      execPaths (effects sys ac av p) = ["/usr/share/devscripts/debpkg"] := by
    intro sys ac av p
    cases h : sys.execve REAL_PATH av p with
    | none => rw [effects_replaced sys ac av p h]; rfl
    | some e => rw [effects_failed sys ac av p e h]; rfl
  rw [key sys1 ac1 av1 p1, key sys2 ac2 av2 p2]
  exact ⟨rfl, rfl⟩

/-! ## Failure reporting -/

/-- C3: whenever the process replacement fails, whatever the error code `e` and
the argument vector, the program terminates with exit status 1. -/
theorem C3_failure_exit_status (sys : Sys) (ac : Int) (av : List String) (p : Proc)
    (e : Nat) (h : sys.execve REAL_PATH av p = some e) :
    (main sys ac av p).2 = Outcome.exited 1 :=
  main_failed_outcome sys ac av p e h

theorem C3_failure_exit_status_witness :
    sysMissing.execve REAL_PATH ["wrapper"] proc0 = some 2 ∧
      (main sysMissing 1 ["wrapper"] proc0).2 = Outcome.exited 1 :=
  ⟨rfl, C3_failure_exit_status sysMissing 1 ["wrapper"] proc0 2 rfl⟩

/-- C4 (as stated) fails.  On a system without the helper (`ENOENT`), started
with standard error closed, the run makes its write request but nothing
reaches standard error, so the stream does not end with the diagnostic line.
The same happens with standard error open when the system refuses the write. -/
theorem C4_closed_stderr_counterexample :
    (sysMissing.execve REAL_PATH ["wrapper"] procNoStderr = some ENOENT ∧
      (main sysMissing 1 ["wrapper"] procNoStderr).1.err = procNoStderr.err ∧
      (main sysMissing 1 ["wrapper"] procNoStderr).1.err
        ≠ procNoStderr.err
            ++ ("Error executing debpkg: " ++ sysMissing.strerror ENOENT ++ "\n")) ∧
    (sysFullDevice.execve REAL_PATH ["wrapper"] proc1 = some ENOENT ∧
      STDERR_FILENO ∈ proc1.fds ∧
      (main sysFullDevice 1 ["wrapper"] proc1).1.err = proc1.err ∧
      (main sysFullDevice 1 ["wrapper"] proc1).1.err
        ≠ proc1.err
            ++ ("Error executing debpkg: " ++ sysFullDevice.strerror ENOENT ++ "\n")) := by
  decide

/-- C4 (amended): whenever the process replacement fails with error code `e`,
the program makes exactly one write request to standard error, whose text is
`Error executing debpkg: ` followed by the system description of `e` (the code
the failed request set, whatever `errno` held before) and one newline; and
when descriptor 2 is open and the system carries that write out, standard
error afterwards is what it was before followed by that line. -/
theorem C4_diagnostic_line (sys : Sys) (ac : Int) (av : List String) (p : Proc)
    (e : Nat) (h : sys.execve REAL_PATH av p = some e) :
    writesTo STDERR_FILENO (effects sys ac av p)
        = ["Error executing debpkg: " ++ sys.strerror e ++ "\n"] ∧
      (STDERR_FILENO ∈ p.fds →
        sys.write STDERR_FILENO ("Error executing debpkg: " ++ sys.strerror e ++ "\n") = none →
        (main sys ac av p).1.err
          = p.err ++ ("Error executing debpkg: " ++ sys.strerror e ++ "\n")) := by
  rw [effects_failed sys ac av p e h]
  exact ⟨rfl, fun hopen hw => main_failed_err sys ac av p e h hopen hw⟩

theorem C4_diagnostic_line_witness :
    (sysNoExec.execve REAL_PATH ["debpkg", "-i"] proc1 = some 13 ∧
      STDERR_FILENO ∈ proc1.fds ∧
      sysNoExec.write STDERR_FILENO
        ("Error executing debpkg: " ++ sysNoExec.strerror 13 ++ "\n") = none) ∧
      writesTo STDERR_FILENO (effects sysNoExec 2 ["debpkg", "-i"] proc1)
        = ["Error executing debpkg: " ++ sysNoExec.strerror 13 ++ "\n"] ∧
      (main sysNoExec 2 ["debpkg", "-i"] proc1).1.err
        = proc1.err ++ ("Error executing debpkg: " ++ sysNoExec.strerror 13 ++ "\n") :=
  ⟨⟨rfl, by decide, rfl⟩,
    (C4_diagnostic_line sysNoExec 2 ["debpkg", "-i"] proc1 13 rfl).1,
    (C4_diagnostic_line sysNoExec 2 ["debpkg", "-i"] proc1 13 rfl).2 (by decide) rfl⟩

/-- C5: the run ends with an exit status of the program if and only if the
process replacement fails; when the replacement succeeds the request is the last
thing the program does, nothing is written to standard error and there is no
exit status; and the exit status is never 0. -/
theorem C5_exit_status_iff_failure (sys : Sys) (ac : Int) (av : List String) (p : Proc) :
    ((∃ s, (main sys ac av p).2 = Outcome.exited s) ↔
        ∃ e, sys.execve REAL_PATH av p = some e) ∧
      (sys.execve REAL_PATH av p = none →
        (main sys ac av p).2 = Outcome.replaced ∧
        (effects sys ac av p).getLast?
          = some (Effect.execv REAL_PATH av p.env p.fds p.ids) ∧
        writesTo STDERR_FILENO (effects sys ac av p) = [] ∧
        (main sys ac av p).1.err = p.err) ∧
      (main sys ac av p).2 ≠ Outcome.exited 0 := by
  cases h : sys.execve REAL_PATH av p with
  | none =>
    rw [effects_replaced sys ac av p h, main_replaced sys ac av p h]
    refine ⟨?_, fun _ => ⟨rfl, rfl, rfl, rfl⟩, by simp⟩
    simp
  | some e =>
    rw [main_failed_outcome sys ac av p e h]
    refine ⟨?_, fun hn => by simp at hn, by simp⟩
    simp

theorem C5_exit_status_iff_failure_witness :
    sysInstalled.execve REAL_PATH ["wrapper", "-x", "foo"] proc0 = none ∧
      (main sysInstalled 3 ["wrapper", "-x", "foo"] proc0).2 = Outcome.replaced ∧
      (effects sysInstalled 3 ["wrapper", "-x", "foo"] proc0).getLast?
        = some (Effect.execv REAL_PATH ["wrapper", "-x", "foo"] proc0.env proc0.fds
            proc0.ids) ∧
      writesTo STDERR_FILENO (effects sysInstalled 3 ["wrapper", "-x", "foo"] proc0) = [] ∧
      (main sysInstalled 3 ["wrapper", "-x", "foo"] proc0).1.err = proc0.err :=
  ⟨rfl, (C5_exit_status_iff_failure sysInstalled 3 ["wrapper", "-x", "foo"] proc0).2.1 rfl⟩

/-- C7: in every run, whether the replacement succeeds or fails, the program
writes nothing to standard output: no write to descriptor 1 occurs and the
stream after the run equals the stream before it. -/
theorem C7_stdout_untouched (sys : Sys) (ac : Int) (av : List String) (p : Proc) :
    writesTo STDOUT_FILENO (effects sys ac av p) = [] ∧ (main sys ac av p).1.out = p.out := by
  refine ⟨?_, (main_frame sys ac av p).1⟩
  cases h : sys.execve REAL_PATH av p with
  | none => rw [effects_replaced sys ac av p h]; rfl
  | some e => rw [effects_failed sys ac av p e h]; rfl

/-- C8: the process-replacement request is the first effect of the run, and it
is made with the environment, open descriptors and user and group IDs the
program was started with; no effect of the run changes any of them, and they
are the same in the final state. -/
theorem C8_request_first_state_unchanged (sys : Sys) (ac : Int) (av : List String)
    (p : Proc) :
    (effects sys ac av p).head? = some (Effect.execv REAL_PATH av p.env p.fds p.ids) ∧
      (effects sys ac av p).filter Effect.changesProcess = [] ∧
      (main sys ac av p).1.env = p.env ∧
      (main sys ac av p).1.fds = p.fds ∧
      (main sys ac av p).1.ids = p.ids := by
  refine ⟨?_, ?_, (main_frame sys ac av p).2⟩
  · cases h : sys.execve REAL_PATH av p with
    | none => rw [effects_replaced sys ac av p h]; rfl
    | some e => rw [effects_failed sys ac av p e h]; rfl
  · cases h : sys.execve REAL_PATH av p with
    | none => rw [effects_replaced sys ac av p h]; rfl
    | some e => rw [effects_failed sys ac av p e h]; rfl

/-- C9: the whole effect trace of a run is one process-replacement request,
followed, exactly when the request fails, by one write to standard error and
termination with status 1; so there is exactly one request in every run and no
fork, filesystem write or network access. -/
theorem C9_effect_trace (sys : Sys) (ac : Int) (av : List String) (p : Proc) :
    effects sys ac av p =
        (match sys.execve REAL_PATH av p with
          | none => [Effect.execv REAL_PATH av p.env p.fds p.ids]
          | some e =>
            [Effect.execv REAL_PATH av p.env p.fds p.ids,
              Effect.write STDERR_FILENO ("Error executing debpkg: " ++ sys.strerror e ++ "\n"),
              Effect.exit 1]) ∧
      (execPaths (effects sys ac av p)).length = 1 ∧
      (effects sys ac av p).filter Effect.reachesOutside = [] := by
  cases h : sys.execve REAL_PATH av p with
  | none =>
    rw [effects_replaced sys ac av p h]
    exact ⟨rfl, rfl, rfl⟩
  | some e =>
    rw [effects_failed sys ac av p e h]
    exact ⟨rfl, rfl, rfl⟩

/-- C10: the name in the diagnostic is the final component `debpkg` of the
target path, and two failing runs with the same error code write the same text
to standard error whatever their argument counts, argument vectors and process
states. -/
theorem C10_diagnostic_independent_of_argv (sys : Sys) (ac1 ac2 : Int)
    (av1 av2 : List String) (p1 p2 : Proc) (e : Nat)
    (h1 : sys.execve REAL_PATH av1 p1 = some e)
    (h2 : sys.execve REAL_PATH av2 p2 = some e) :
    basename REAL_PATH = "debpkg" ∧
      writesTo STDERR_FILENO (effects sys ac1 av1 p1)
        = ["Error executing " ++ basename REAL_PATH ++ ": " ++ sys.strerror e ++ "\n"] ∧
      writesTo STDERR_FILENO (effects sys ac2 av2 p2)
        = writesTo STDERR_FILENO (effects sys ac1 av1 p1) := by
  rw [effects_failed sys ac1 av1 p1 e h1, effects_failed sys ac2 av2 p2 e h2]
  exact ⟨by decide, rfl, rfl⟩

theorem C10_diagnostic_independent_of_argv_witness :
    (sysMissing.execve REAL_PATH ["wrapper"] proc0 = some 2 ∧
      sysMissing.execve REAL_PATH ["/usr/bin/debpkg", "--install", "x.deb"] proc1 = some 2) ∧
    (basename REAL_PATH = "debpkg" ∧
      writesTo STDERR_FILENO (effects sysMissing 1 ["wrapper"] proc0)
        = ["Error executing " ++ basename REAL_PATH ++ ": " ++ sysMissing.strerror 2 ++ "\n"] ∧
      writesTo STDERR_FILENO
          (effects sysMissing 3 ["/usr/bin/debpkg", "--install", "x.deb"] proc1)
        = writesTo STDERR_FILENO (effects sysMissing 1 ["wrapper"] proc0)) :=
  ⟨⟨rfl, rfl⟩,
    C10_diagnostic_independent_of_argv sysMissing 1 3 ["wrapper"]
      ["/usr/bin/debpkg", "--install", "x.deb"] proc0 proc1 2 rfl rfl⟩

end DebpkgWrapper
